import Mathlib

/-!
Shallow embedding of the template service of `backend/app/template_routes.py`
(data model from `backend/app/template_models.py`), together with a model of
the MongoDB collection it talks to (a list of documents with a unique
compound index on `(template_id, client_id)`).

Timestamps (`datetime`) are modelled as natural numbers; each handler takes
the reading(s) of the clock (`datetime.utcnow()`) as explicit parameters,
one per call site in the source.
-/

/-- `TemplateSectionModel` from `template_models.py`. -/
structure TemplateSectionModel where
  title : String
  instruction : String
  format : String
  item_format : Option String
  example_item_format : Option String
deriving DecidableEq, Repr

/-- `TemplateModel` from `template_models.py`: the full template document as
stored in MongoDB (the store-assigned `_id` is dropped by `_doc_to_model`
and is not part of the model). -/
structure TemplateModel where
  template_id : String
  client_id : String
  name : String
  description : String
  sections : List TemplateSectionModel
  global_instruction : Option String
  clinical_safety_rules : Option (List String)
  version : Int
  is_active : Bool
  created_at : Nat
  updated_at : Nat
deriving DecidableEq, Repr

/-- `TemplateSyncResponse` from `template_models.py`. -/
structure TemplateSyncResponse where
  templates : List TemplateModel
  sync_timestamp : Nat
deriving DecidableEq, Repr

/-- A raised `HTTPException(status_code, detail)`. -/
structure HTTPError where
  status : Nat
  detail : String
deriving DecidableEq, Repr

deriving instance DecidableEq for Except

/-- The MongoDB templates collection, modelled as the list of its documents
in natural (insertion) order. -/
abbrev Store := List TemplateModel

/-- Whether two documents collide on the unique compound index
`(template_id, client_id)` (`_ensure_indexes`). -/
def keyEq (a b : TemplateModel) : Bool :=
  a.template_id == b.template_id && a.client_id == b.client_id

/-- The invariant the unique index of `_ensure_indexes` maintains: no two
stored documents share the `(template_id, client_id)` pair. -/
def uniqueKeys : Store → Bool
  | [] => true
  | d :: s => s.all (fun e => !keyEq d e) && uniqueKeys s

/-- `collection.find({"client_id": c, "is_active": True})`, in store order. -/
def findActiveClient (store : Store) (c : String) : List TemplateModel :=
  store.filter (fun d => d.client_id == c && d.is_active)

/-- `collection.find_one({"template_id": tid, "client_id": c, "is_active": True})`:
first matching document, if any. -/
def findOneActive (store : Store) (tid c : String) : Option TemplateModel :=
  store.find? (fun d => d.template_id == tid && d.client_id == c && d.is_active)

/-- One step of building / merging the Python dict keyed by `template_id`
(`defaults[doc["template_id"]] = doc`): replace the entry with that key in
place if present, else append. -/
def dinsert (d : List TemplateModel) (x : TemplateModel) : List TemplateModel :=
  if d.any (fun y => y.template_id == x.template_id) then
    d.map (fun y => if y.template_id == x.template_id then x else y)
  else
    d ++ [x]

/-- Lexicographic code-point comparison of char lists: CPython's `str`
comparison (`s <= t`), with a strict prefix ranking below. -/
def listLe : List Char → List Char → Bool
  | [], _ => true
  | _ :: _, [] => false
  | a :: as, b :: bs => if a = b then listLe as bs else decide (a < b)

/-- CPython's `s <= t` on strings. -/
def strLe (s t : String) : Bool :=
  listLe s.toList t.toList

/-- The order `templates.sort(key=lambda t: t.name)` sorts by: `name`
ascending. -/
def nameLe (a b : TemplateModel) : Prop :=
  strLe a.name b.name = true

instance : DecidableRel nameLe :=
  fun a b => instDecidableEqBool (strLe a.name b.name) true

/-- Python's stable `templates.sort(key=lambda t: t.name)`: a stable sort by
`name` ascending (insertion sort is stable, hence extensionally equal to
CPython's Timsort on this key). -/
def sortByName (l : List TemplateModel) : List TemplateModel :=
  l.insertionSort nameLe

/-- `list_templates(client_id)` (`GET /api/templates`): fetch active
defaults into a dict keyed by `template_id`, merge active client overrides
when a non-default client was requested, sort by name, wrap with the sync
timestamp. -/
def list_templates (store : Store) (client_id : String) (now : Nat) :
    TemplateSyncResponse :=
  let defaults := (findActiveClient store "default").foldl dinsert []
  let merged :=
    if client_id ≠ "default" then
      (findActiveClient store client_id).foldl dinsert defaults
    else defaults
  { templates := sortByName merged, sync_timestamp := now }

/-- The variant of `list_templates` that performs the override-merge step
unconditionally, i.e. also when `client_id = "default"` — the hypothetical
the spec describes when it calls the skipped merge an optimization. -/
def list_templates_noSkip (store : Store) (client_id : String) (now : Nat) :
    TemplateSyncResponse :=
  let defaults := (findActiveClient store "default").foldl dinsert []
  let merged := (findActiveClient store client_id).foldl dinsert defaults
  { templates := sortByName merged, sync_timestamp := now }

/-- `get_template(template_id, client_id)` (`GET /api/templates/{template_id}`):
client-specific active document first (only for non-default clients), then
the active default, else 404. -/
def get_template (store : Store) (template_id : String) (client_id : String) :
    Except HTTPError TemplateModel :=
  match (if client_id ≠ "default" then findOneActive store template_id client_id else none) with
  | some doc => .ok doc
  | none =>
    match findOneActive store template_id "default" with
    | some doc => .ok doc
    | none => .error ⟨404, "Template " ++ template_id ++ " not found"⟩

/-- The two `datetime.utcnow()` stamps of `create_template`:
`doc["created_at"] = utcnow(); doc["updated_at"] = utcnow()`. -/
def stamp (t : TemplateModel) (nowC nowU : Nat) : TemplateModel :=
  { t with created_at := nowC, updated_at := nowU }

/-- Model of the external collaborator `collection.insert_one` under the
unique index on `(template_id, client_id)`: a duplicate key aborts the
write and raises MongoDB's `DuplicateKeyError`, whose message is the E11000
"duplicate key error" text; otherwise the document is appended. -/
def insert_one (store : Store) (doc : TemplateModel) :
    Except String Store :=
  if store.any (fun d => keyEq d doc) then
    .error "E11000 duplicate key error collection: templates index: template_id_1_client_id_1"
  else
    .ok (store ++ [doc])

/-- Python `needle in hay` on strings: substring containment, on char lists. -/
def charListLeads : List Char → List Char → Bool
  | [], _ => true
  | _ :: _, [] => false
  | a :: as, b :: bs => a == b && charListLeads as bs

/-- Auxiliary for `pyIn`: does `needle` occur starting at some position? -/
def charListHas (needle : List Char) : List Char → Bool
  | [] => charListLeads needle []
  | b :: bs => charListLeads needle (b :: bs) || charListHas needle bs

/-- Python `needle in hay` for strings. -/
def pyIn (needle hay : String) : Bool :=
  charListHas needle.toList hay.toList

/-- Python `str.lower()` (character-wise lowercasing; ASCII suffices for
the messages classified here). -/
def strLower (s : String) : String :=
  ⟨s.toList.map Char.toLower⟩

/-- The `except` clause of `create_template`: a failure whose message
contains "duplicate key" (after `.lower()`) becomes a 409 conflict, any
other failure a 503. -/
def classify_create_failure (template : TemplateModel) (e : String) : HTTPError :=
  if pyIn "duplicate key" (strLower e) then
    ⟨409, "Template " ++ template.template_id ++ " already exists for client " ++ template.client_id⟩
  else
    ⟨503, "Template service unavailable: " ++ e⟩

/-- The tail of `create_template` after the store interaction: on success
return the ORIGINAL request model `template` (not the stamped document);
on failure classify the exception. The second component is the resulting
store (unchanged on failure). -/
def handle_insert (template : TemplateModel) (store : Store)
    (res : Except String Store) : Except HTTPError TemplateModel × Store :=
  match res with
  | .ok store2 => (.ok template, store2)
  | .error e => (.error (classify_create_failure template e), store)

/-- `create_template(template)` (`POST /api/templates`): stamp
`created_at`/`updated_at`, insert, return the request model; duplicate-key
failures become 409, others 503. -/
def create_template (store : Store) (template : TemplateModel)
    (nowC nowU : Nat) : Except HTTPError TemplateModel × Store :=
  handle_insert template store (insert_one store (stamp template nowC nowU))

/-- The `$set` document of `update_template` applied to a stored document:
every field comes from the request body `t`, except `created_at` (popped
from the update) which is kept, and `updated_at` which is stamped. -/
def applySet (old t : TemplateModel) (now : Nat) : TemplateModel :=
  { template_id := t.template_id
    client_id := t.client_id
    name := t.name
    description := t.description
    sections := t.sections
    global_instruction := t.global_instruction
    clinical_safety_rules := t.clinical_safety_rules
    version := t.version
    is_active := t.is_active
    created_at := old.created_at
    updated_at := now }

/-- MongoDB's E11000 message for the unique compound index, as raised both
by `insert_one` of a duplicate pair and by a `$set` that rekeys a document
onto another document's `(template_id, client_id)` pair. -/
def dupKeyMsg : String :=
  "E11000 duplicate key error collection: templates index: template_id_1_client_id_1"

/-- Model of `collection.find_one_and_update(filter, {"$set": ...},
return_document=True)` under the unique compound index of
`_ensure_indexes`: update the first document matching
`(template_id, client_id)` by `f` and return the post-update document; if
the updated document would collide on `(template_id, client_id)` with any
OTHER stored document, the write is rejected and MongoDB raises its E11000
`DuplicateKeyError` (no document is modified); with no match, return
`none` leaving the store unchanged. -/
def find_one_and_update (store : Store) (tid cid : String)
    (f : TemplateModel → TemplateModel) :
    Except String (Option TemplateModel × Store) :=
  match store with
  | [] => .ok (none, [])
  | d :: ds =>
    if d.template_id == tid && d.client_id == cid then
      if ds.any (fun e => keyEq (f d) e) then
        .error dupKeyMsg
      else
        .ok (some (f d), f d :: ds)
    else
      match find_one_and_update ds tid cid f with
      | .error e => .error e
      | .ok (none, ds2) => .ok (none, d :: ds2)
      | .ok (some u, ds2) =>
        if keyEq u d then
          .error dupKeyMsg
        else
          .ok (some u, d :: ds2)

/-- `update_template(template_id, template)` (`PUT /api/templates/{template_id}`):
full-document `$set` (minus `created_at`, plus stamped `updated_at`) on the
document matching the path `template_id` and the body's `client_id`;
404 when no document matches; a store failure (such as the duplicate-key
rejection of a rekeying `$set`) is caught by the generic `except` clause
and surfaces as 503 with no write. -/
def update_template (store : Store) (template_id : String)
    (template : TemplateModel) (now : Nat) :
    Except HTTPError TemplateModel × Store :=
  match find_one_and_update store template_id template.client_id
      (fun old => applySet old template now) with
  | .ok (some doc, store2) => (.ok doc, store2)
  | .ok (none, store2) =>
    (.error ⟨404, "Template " ++ template_id ++ " not found for client " ++ template.client_id⟩,
     store2)
  | .error e => (.error ⟨503, "Template service unavailable: " ++ e⟩, store)

/-! ### Order lemmas for the sort key -/

theorem listLe_total : ∀ as bs : List Char, listLe as bs = true ∨ listLe bs as = true
  | [], _ => Or.inl rfl
  | _ :: _, [] => Or.inr rfl
  | a :: as, b :: bs => by
    by_cases hab : a = b
    · subst hab
      simpa [listLe] using listLe_total as bs
    · have hba : b ≠ a := fun h => hab h.symm
      simp only [listLe, if_neg hab, if_neg hba]
      rcases lt_trichotomy a b with h | h | h
      · exact Or.inl (by simpa using h)
      · exact absurd h hab
      · exact Or.inr (by simpa using h)

theorem listLe_trans : ∀ as bs cs : List Char,
    listLe as bs = true → listLe bs cs = true → listLe as cs = true
  | [], _, _, _, _ => rfl
  | _ :: _, [], _, h1, _ => by simp [listLe] at h1
  | _ :: _, _ :: _, [], _, h2 => by simp [listLe] at h2
  | a :: as, b :: bs, c :: cs, h1, h2 => by
    by_cases hab : a = b <;> by_cases hbc : b = c
    · subst hab; subst hbc
      simp only [listLe, if_pos rfl] at h1 h2 ⊢
      exact listLe_trans as bs cs h1 h2
    · subst hab
      simp only [listLe, if_pos rfl, if_neg hbc, decide_eq_true_eq] at h1 h2 ⊢
      exact h2
    · subst hbc
      simp only [listLe, if_neg hab, decide_eq_true_eq] at h1 ⊢
      exact h1
    · simp only [listLe, if_neg hab, if_neg hbc, decide_eq_true_eq] at h1 h2
      have hac : a < c := lt_trans h1 h2
      simp only [listLe, if_neg (ne_of_lt hac), decide_eq_true_eq]
      exact hac

theorem strLe_total (s t : String) : strLe s t = true ∨ strLe t s = true :=
  listLe_total s.toList t.toList

theorem strLe_trans {s t u : String} (h1 : strLe s t = true) (h2 : strLe t u = true) :
    strLe s u = true :=
  listLe_trans s.toList t.toList u.toList h1 h2

instance : IsTotal TemplateModel nameLe :=
  ⟨fun a b => strLe_total a.name b.name⟩

instance : IsTrans TemplateModel nameLe :=
  ⟨fun _ _ _ h1 h2 => strLe_trans h1 h2⟩

/-! ### Unique-index lemmas -/

theorem keyEq_true_iff {a b : TemplateModel} :
    keyEq a b = true ↔ a.template_id = b.template_id ∧ a.client_id = b.client_id := by
  simp [keyEq]

theorem keyEq_symm_false {a b : TemplateModel} (h : keyEq a b = false) :
    keyEq b a = false := by
  rw [Bool.eq_false_iff] at h ⊢
  intro hc
  exact h (keyEq_true_iff.mpr ⟨(keyEq_true_iff.mp hc).1.symm, (keyEq_true_iff.mp hc).2.symm⟩)

theorem uniqueKeys_iff (s : Store) :
    uniqueKeys s = true ↔ List.Pairwise (fun a b => keyEq a b = false) s := by
  induction s with
  | nil => simp [uniqueKeys]
  | cons d s ih =>
    simp [uniqueKeys, List.all_eq_true, List.pairwise_cons, ih]

theorem uniq_eq_of_key {s : Store} {a b : TemplateModel}
    (hu : uniqueKeys s = true) (ha : a ∈ s) (hb : b ∈ s)
    (ht : a.template_id = b.template_id) (hc : a.client_id = b.client_id) : a = b := by
  by_contra hne
  have hp := (uniqueKeys_iff s).mp hu
  have hsymm : Symmetric (fun a b : TemplateModel => keyEq a b = false) :=
    fun _ _ h => keyEq_symm_false h
  have := hp.forall hsymm ha hb hne
  rw [Bool.eq_false_iff] at this
  exact this (keyEq_true_iff.mpr ⟨ht, hc⟩)

/-! ### `find_one` lemmas -/

theorem findOneActive_eq_some {s : Store} {o : TemplateModel} {tid cid : String}
    (hu : uniqueKeys s = true) (ho : o ∈ s) (h1 : o.template_id = tid)
    (h2 : o.client_id = cid) (h3 : o.is_active = true) :
    findOneActive s tid cid = some o := by
  induction s with
  | nil => cases ho
  | cons d s ih =>
    have hu2 := (uniqueKeys_iff _).mp hu
    rw [List.pairwise_cons] at hu2
    rw [findOneActive, List.find?_cons]
    by_cases hpd : (d.template_id == tid && d.client_id == cid && d.is_active) = true
    · rw [hpd]
      rcases List.mem_cons.mp ho with rfl | ho2
      · rfl
      · exfalso
        simp only [Bool.and_eq_true, beq_iff_eq] at hpd
        have := hu2.1 o ho2
        rw [Bool.eq_false_iff] at this
        exact this (keyEq_true_iff.mpr ⟨hpd.1.1.trans h1.symm, hpd.1.2.trans h2.symm⟩)
    · rw [Bool.not_eq_true] at hpd
      rw [hpd]
      have hod : o ≠ d := by
        rintro rfl
        simp [h1, h2, h3] at hpd
      rcases List.mem_cons.mp ho with rfl | ho2
      · exact absurd rfl hod
      · exact ih ((uniqueKeys_iff _).mpr hu2.2) ho2

theorem findOneActive_eq_none {s : Store} {tid cid : String}
    (h : ∀ d ∈ s, d.template_id = tid → d.client_id = cid → d.is_active = false) :
    findOneActive s tid cid = none := by
  apply List.find?_eq_none.mpr
  intro x hx
  simp only [Bool.and_eq_true, beq_iff_eq, not_and]
  intro hxt hxc
  simp [h x hx hxt.1 hxt.2] at hxc

/-! ### `find_one_and_update` lemmas -/

theorem fotu_none {s : Store} {tid cid : String} {f : TemplateModel → TemplateModel}
    (h : ∀ d ∈ s, ¬(d.template_id = tid ∧ d.client_id = cid)) :
    find_one_and_update s tid cid f = .ok (none, s) := by
  induction s with
  | nil => rfl
  | cons d ds ih =>
    have hd : ¬(d.template_id == tid && d.client_id == cid) = true := by
      simp only [Bool.and_eq_true, beq_iff_eq]
      exact h d (List.mem_cons_self d ds)
    have ih2 := ih (fun e he => h e (List.mem_cons_of_mem d he))
    simp [find_one_and_update, hd, ih2]

theorem fotu_decomp {l1 l2 : Store} {m : TemplateModel} {tid cid : String}
    {f : TemplateModel → TemplateModel}
    (h1 : ∀ d ∈ l1, ¬(d.template_id = tid ∧ d.client_id = cid))
    (hm1 : m.template_id = tid) (hm2 : m.client_id = cid)
    (hnc1 : ∀ d ∈ l1, keyEq (f m) d = false)
    (hnc2 : ∀ d ∈ l2, keyEq (f m) d = false) :
    find_one_and_update (l1 ++ m :: l2) tid cid f =
      .ok (some (f m), l1 ++ f m :: l2) := by
  induction l1 with
  | nil =>
    have hm : (m.template_id == tid && m.client_id == cid) = true := by simp [hm1, hm2]
    have hany : (l2.any (fun e => keyEq (f m) e)) = false := by
      apply List.any_eq_false.mpr
      intro e he hc
      rw [hnc2 e he] at hc
      exact Bool.false_ne_true hc
    simp [find_one_and_update, hm, hany]
  | cons d ds ih =>
    have hd : ¬(d.template_id == tid && d.client_id == cid) = true := by
      simp only [Bool.and_eq_true, beq_iff_eq]
      exact h1 d (List.mem_cons_self d ds)
    have ih2 := ih (fun e he => h1 e (List.mem_cons_of_mem d he))
      (fun e he => hnc1 e (List.mem_cons_of_mem d he))
    simp [find_one_and_update, hd, ih2, hnc1 d (List.mem_cons_self d ds)]

theorem fotu_found_cases {l1 l2 : Store} {m : TemplateModel} {tid cid : String}
    {f : TemplateModel → TemplateModel}
    (h1 : ∀ d ∈ l1, ¬(d.template_id = tid ∧ d.client_id = cid))
    (hm1 : m.template_id = tid) (hm2 : m.client_id = cid) :
    find_one_and_update (l1 ++ m :: l2) tid cid f = .error dupKeyMsg ∨
    find_one_and_update (l1 ++ m :: l2) tid cid f =
      .ok (some (f m), l1 ++ f m :: l2) := by
  induction l1 with
  | nil =>
    have hm : (m.template_id == tid && m.client_id == cid) = true := by simp [hm1, hm2]
    by_cases hany : (l2.any (fun e => keyEq (f m) e)) = true
    · left
      simp [find_one_and_update, hm, hany]
    · right
      rw [Bool.not_eq_true] at hany
      simp [find_one_and_update, hm, hany]
  | cons d ds ih =>
    have hd : ¬(d.template_id == tid && d.client_id == cid) = true := by
      simp only [Bool.and_eq_true, beq_iff_eq]
      exact h1 d (List.mem_cons_self d ds)
    rcases ih (fun x hx => h1 x (List.mem_cons_of_mem d hx)) with hin | hin
    · left
      simp [find_one_and_update, hd, hin]
    · by_cases hkd : keyEq (f m) d = true
      · left
        simp [find_one_and_update, hd, hin, hkd]
      · right
        rw [Bool.not_eq_true] at hkd
        simp [find_one_and_update, hd, hin, hkd]

theorem fotu_collision {l1 l2 : Store} {m e : TemplateModel} {tid cid : String}
    {f : TemplateModel → TemplateModel}
    (h1 : ∀ d ∈ l1, ¬(d.template_id = tid ∧ d.client_id = cid))
    (hm1 : m.template_id = tid) (hm2 : m.client_id = cid)
    (he : e ∈ l1 ∨ e ∈ l2) (hk : keyEq (f m) e = true) :
    find_one_and_update (l1 ++ m :: l2) tid cid f = .error dupKeyMsg := by
  induction l1 with
  | nil =>
    have hm : (m.template_id == tid && m.client_id == cid) = true := by simp [hm1, hm2]
    rcases he with h | h
    · exact absurd h (List.not_mem_nil e)
    · have hany : (l2.any (fun x => keyEq (f m) x)) = true :=
        List.any_eq_true.mpr ⟨e, h, hk⟩
      simp [find_one_and_update, hm, hany]
  | cons d ds ih =>
    have hd : ¬(d.template_id == tid && d.client_id == cid) = true := by
      simp only [Bool.and_eq_true, beq_iff_eq]
      exact h1 d (List.mem_cons_self d ds)
    have h1t := fun x hx => h1 x (List.mem_cons_of_mem d hx)
    rcases he with h | h
    · rcases List.mem_cons.mp h with rfl | hds
      · rcases @fotu_found_cases ds l2 m tid cid f h1t hm1 hm2 with hin | hin
        · simp [find_one_and_update, hd, hin]
        · simp [find_one_and_update, hd, hin, hk]
      · simp [find_one_and_update, hd, ih h1t (Or.inl hds)]
    · simp [find_one_and_update, hd, ih h1t (Or.inr h)]

/-- In a store with unique keys, a member document splits the store into a
prefix free of its key, itself, and a suffix free of its key. -/
theorem exists_first_decomp {s : Store} {old : TemplateModel}
    (hu : uniqueKeys s = true) (ho : old ∈ s) :
    ∃ l1 l2, s = l1 ++ old :: l2 ∧ (∀ d ∈ l1, keyEq d old = false) ∧
      ∀ d ∈ l2, keyEq old d = false := by
  obtain ⟨l1, l2, rfl⟩ := List.append_of_mem ho
  have hp := (uniqueKeys_iff _).mp hu
  rw [List.pairwise_append] at hp
  refine ⟨l1, l2, rfl, fun d hd => hp.2.2 d hd old (List.mem_cons_self _ _), ?_⟩
  have := hp.2.1
  rw [List.pairwise_cons] at this
  exact this.1

/-! ### Dict lemmas (the Python dict keyed by `template_id`) -/

/-- Distinct `template_id` keys in a dict value list. -/
def dNodup (d : List TemplateModel) : Prop :=
  List.Pairwise (fun a b => a.template_id ≠ b.template_id) d

/-- `d[t]`: the entry of the dict with key `t`. -/
def dlookup (d : List TemplateModel) (t : String) : Option TemplateModel :=
  d.find? (fun y => y.template_id == t)

theorem mem_dinsert {d : List TemplateModel} {x y : TemplateModel}
    (hy : y ∈ dinsert d x) : y ∈ d ∨ y = x := by
  unfold dinsert at hy
  split at hy
  · rcases List.mem_map.mp hy with ⟨z, hz, hzy⟩
    by_cases h : (z.template_id == x.template_id) = true
    · right; rw [← hzy]; simp [h]
    · left
      rw [Bool.not_eq_true] at h
      rw [← hzy]; simp only [h]
      simpa using hz
  · rcases List.mem_append.mp hy with h | h
    · exact Or.inl h
    · exact Or.inr (by simpa using h)

theorem dinsert_tid_iff {d : List TemplateModel} {x : TemplateModel} {t : String} :
    (∃ y ∈ dinsert d x, y.template_id = t) ↔
      (∃ y ∈ d, y.template_id = t) ∨ x.template_id = t := by
  constructor
  · rintro ⟨y, hy, rfl⟩
    rcases mem_dinsert hy with h | rfl
    · exact Or.inl ⟨y, h, rfl⟩
    · exact Or.inr rfl
  · rintro (⟨y, hy, rfl⟩ | h)
    · unfold dinsert
      split
      · by_cases hx : (y.template_id == x.template_id) = true
        · refine ⟨x, List.mem_map.mpr ⟨y, hy, by simp [hx]⟩, ?_⟩
          exact (beq_iff_eq.mp hx).symm
        · rw [Bool.not_eq_true] at hx
          exact ⟨y, List.mem_map.mpr ⟨y, hy, by simp [hx]⟩, rfl⟩
      · exact ⟨y, List.mem_append.mpr (Or.inl hy), rfl⟩
    · unfold dinsert
      split
      · next hany =>
        rcases List.any_eq_true.mp hany with ⟨z, hz, hzx⟩
        exact ⟨x, List.mem_map.mpr ⟨z, hz, by simp [hzx]⟩, h⟩
      · exact ⟨x, List.mem_append.mpr (Or.inr (by simp)), h⟩

theorem foldl_dinsert_mem {L : List TemplateModel} : ∀ {d y},
    y ∈ L.foldl dinsert d → y ∈ d ∨ y ∈ L := by
  induction L with
  | nil => intro d y hy; exact Or.inl hy
  | cons z M ih =>
    intro d y hy
    rw [List.foldl_cons] at hy
    rcases ih hy with h | h
    · rcases mem_dinsert h with h2 | rfl
      · exact Or.inl h2
      · exact Or.inr (List.mem_cons_self _ _)
    · exact Or.inr (List.mem_cons_of_mem _ h)

theorem foldl_dinsert_tid_iff {L : List TemplateModel} {t : String} : ∀ {d},
    (∃ y ∈ L.foldl dinsert d, y.template_id = t) ↔
      (∃ y ∈ d, y.template_id = t) ∨ ∃ x ∈ L, x.template_id = t := by
  induction L with
  | nil => intro d; simp
  | cons z M ih =>
    intro d
    rw [List.foldl_cons, ih, dinsert_tid_iff]
    simp only [List.mem_cons]
    constructor
    · rintro ((h | h) | h)
      · exact Or.inl h
      · exact Or.inr ⟨z, Or.inl rfl, h⟩
      · rcases h with ⟨w, hw, hwt⟩
        exact Or.inr ⟨w, Or.inr hw, hwt⟩
    · rintro (h | ⟨w, (rfl | hw), hwt⟩)
      · exact Or.inl (Or.inl h)
      · exact Or.inl (Or.inr hwt)
      · exact Or.inr ⟨w, hw, hwt⟩

theorem dNodup_dinsert {d : List TemplateModel} {x : TemplateModel}
    (hd : dNodup d) : dNodup (dinsert d x) := by
  by_cases hany : (d.any (fun y => y.template_id == x.template_id)) = true
  · rw [dinsert, if_pos hany]
    refine List.Pairwise.map _ ?_ hd
    intro a b hab
    by_cases ha : (a.template_id == x.template_id) = true <;>
      by_cases hb : (b.template_id == x.template_id) = true
    · exact absurd ((beq_iff_eq.mp ha).trans (beq_iff_eq.mp hb).symm) hab
    · rw [if_pos ha, if_neg hb]
      intro hc
      exact hab ((beq_iff_eq.mp ha).trans hc)
    · rw [if_neg ha, if_pos hb]
      intro hc
      exact hab (hc.trans (beq_iff_eq.mp hb).symm)
    · rw [if_neg ha, if_neg hb]
      exact hab
  · rw [Bool.not_eq_true] at hany
    rw [dinsert, if_neg (by rw [hany]; exact Bool.false_ne_true)]
    rw [dNodup, List.pairwise_append]
    refine ⟨hd, List.pairwise_singleton _ _, ?_⟩
    intro a ha b hb
    rw [List.mem_singleton] at hb
    subst hb
    have := List.any_eq_false.mp hany a ha
    rw [Bool.not_eq_true, beq_eq_false_iff_ne] at this
    exact this

theorem dNodup_foldl {L : List TemplateModel} : ∀ {d},
    dNodup d → dNodup (L.foldl dinsert d) := by
  induction L with
  | nil => intro d hd; exact hd
  | cons z M ih =>
    intro d hd
    rw [List.foldl_cons]
    exact ih (dNodup_dinsert hd)

theorem find?_mapg_self {x : TemplateModel} : ∀ {d : List TemplateModel},
    d.any (fun y => y.template_id == x.template_id) = true →
    (d.map (fun y => if y.template_id == x.template_id then x else y)).find?
      (fun y => y.template_id == x.template_id) = some x := by
  intro d
  induction d with
  | nil => intro h; simp at h
  | cons z ds ih =>
    intro h
    by_cases hz2 : z.template_id = x.template_id
    · simp [List.find?_cons, hz2]
    · rw [List.any_cons, beq_eq_false_iff_ne.mpr hz2, Bool.false_or] at h
      simp only [List.map_cons, List.find?_cons, beq_eq_false_iff_ne.mpr hz2,
        Bool.false_eq_true, if_false]
      simpa using ih h

theorem find?_mapg_ne {x : TemplateModel} {t : String} (ht : x.template_id ≠ t) :
    ∀ {d : List TemplateModel},
    (d.map (fun y => if y.template_id == x.template_id then x else y)).find?
      (fun y => y.template_id == t) = d.find? (fun y => y.template_id == t) := by
  intro d
  induction d with
  | nil => rfl
  | cons z ds ih =>
    by_cases hz2 : z.template_id = x.template_id
    · have h1 : (x.template_id == t) = false := beq_eq_false_iff_ne.mpr ht
      have h2 : (z.template_id == t) = false :=
        beq_eq_false_iff_ne.mpr (by rw [hz2]; exact ht)
      simp only [List.map_cons, List.find?_cons, beq_iff_eq.mpr hz2, if_true, h1, h2]
      simpa using ih
    · simp only [List.map_cons, List.find?_cons, beq_eq_false_iff_ne.mpr hz2,
        Bool.false_eq_true, if_false]
      cases hp : (z.template_id == t)
      · simpa using ih
      · rfl

theorem dlookup_dinsert_self {d : List TemplateModel} {x : TemplateModel} :
    dlookup (dinsert d x) x.template_id = some x := by
  by_cases hany : (d.any (fun y => y.template_id == x.template_id)) = true
  · rw [dinsert, if_pos hany]
    exact find?_mapg_self hany
  · rw [Bool.not_eq_true] at hany
    rw [dinsert, if_neg (by rw [hany]; exact Bool.false_ne_true)]
    rw [dlookup, List.find?_append]
    have h1 : d.find? (fun y => y.template_id == x.template_id) = none := by
      apply List.find?_eq_none.mpr
      intro y hy
      exact List.any_eq_false.mp hany y hy
    rw [h1]
    simp [List.find?_cons]

theorem dlookup_dinsert_ne {d : List TemplateModel} {x : TemplateModel} {t : String}
    (ht : x.template_id ≠ t) :
    dlookup (dinsert d x) t = dlookup d t := by
  by_cases hany : (d.any (fun y => y.template_id == x.template_id)) = true
  · rw [dinsert, if_pos hany]
    exact find?_mapg_ne ht
  · rw [Bool.not_eq_true] at hany
    rw [dinsert, if_neg (by rw [hany]; exact Bool.false_ne_true)]
    rw [dlookup, dlookup, List.find?_append]
    have h2 : [x].find? (fun y => y.template_id == t) = none := by
      simp [beq_eq_false_iff_ne.mpr ht]
    rw [h2]
    exact Option.or_none

theorem dlookup_foldl_not_mem {L : List TemplateModel} {t : String}
    (h : ∀ x ∈ L, x.template_id ≠ t) : ∀ {d},
    dlookup (L.foldl dinsert d) t = dlookup d t := by
  induction L with
  | nil => intro d; rfl
  | cons z M ih =>
    intro d
    rw [List.foldl_cons]
    rw [ih (fun x hx => h x (List.mem_cons_of_mem z hx))]
    exact dlookup_dinsert_ne (h z (List.mem_cons_self z M))

theorem dlookup_foldl_self {L : List TemplateModel} (hL : dNodup L) {x : TemplateModel}
    (hx : x ∈ L) : ∀ {d}, dlookup (L.foldl dinsert d) x.template_id = some x := by
  induction L with
  | nil => cases hx
  | cons z M ih =>
    intro d
    rw [List.foldl_cons]
    rw [dNodup, List.pairwise_cons] at hL
    rcases List.mem_cons.mp hx with rfl | hxm
    · rw [dlookup_foldl_not_mem (fun y hy he => hL.1 y hy he.symm)]
      exact dlookup_dinsert_self
    · exact ih hL.2 hxm

theorem dlookup_eq_some_iff {D : List TemplateModel} (hD : dNodup D) {t : String}
    {y : TemplateModel} :
    dlookup D t = some y ↔ y ∈ D ∧ y.template_id = t := by
  induction D with
  | nil => simp [dlookup]
  | cons h ds ih =>
    rw [dNodup, List.pairwise_cons] at hD
    by_cases hh : (h.template_id == t) = true
    · have hh2 := beq_iff_eq.mp hh
      simp only [dlookup, List.find?_cons, hh, Option.some.injEq]
      constructor
      · rintro rfl
        exact ⟨List.mem_cons_self _ _, hh2⟩
      · rintro ⟨hy, hyt⟩
        rcases List.mem_cons.mp hy with rfl | hym
        · rfl
        · exact absurd (hh2.trans hyt.symm) (hD.1 y hym)
    · rw [Bool.not_eq_true] at hh
      simp only [dlookup, List.find?_cons, hh]
      rw [dlookup] at ih
      rw [ih hD.2]
      constructor
      · rintro ⟨hy, hyt⟩
        exact ⟨List.mem_cons_of_mem _ hy, hyt⟩
      · rintro ⟨hy, hyt⟩
        rcases List.mem_cons.mp hy with rfl | hym
        · exact absurd (beq_iff_eq.mpr hyt) (by rw [hh]; exact Bool.false_ne_true)
        · exact ⟨hym, hyt⟩

/-! ### Substring lemmas for error details -/

theorem charListLeads_self_append : ∀ (b c : List Char), charListLeads b (b ++ c) = true
  | [], _ => rfl
  | x :: xs, c => by simp [charListLeads, charListLeads_self_append xs c]

theorem charListHas_of_leads {needle hay : List Char}
    (h : charListLeads needle hay = true) : charListHas needle hay = true := by
  cases hay
  · exact h
  · rw [charListHas, h, Bool.true_or]

theorem charListHas_append : ∀ (a : List Char) {needle rest : List Char},
    charListHas needle rest = true → charListHas needle (a ++ rest) = true
  | [], _, _, h => h
  | x :: xs, needle, rest, h => by
    rw [List.cons_append, charListHas, charListHas_append xs h, Bool.or_true]

/-- The detail string `a ++ b ++ c` names `b` (Python `b in detail`). -/
theorem pyIn_mid (a b c : String) : pyIn b (a ++ b ++ c) = true := by
  have hl : (a ++ b ++ c).toList = a.toList ++ (b.toList ++ c.toList) := by
    simp [String.toList, String.data_append]
  rw [pyIn, hl]
  exact charListHas_append a.toList
    (charListHas_of_leads (charListLeads_self_append b.toList c.toList))

/-! ### `findActiveClient` lemmas -/

theorem mem_findActiveClient {store : Store} {c : String} {y : TemplateModel} :
    y ∈ findActiveClient store c ↔ y ∈ store ∧ y.client_id = c ∧ y.is_active = true := by
  simp [findActiveClient, List.mem_filter, Bool.and_eq_true, and_assoc]

theorem dNodup_findActive {store : Store} {c : String} (hu : uniqueKeys store = true) :
    dNodup (findActiveClient store c) := by
  have hp := (uniqueKeys_iff store).mp hu
  have hsub : List.Pairwise (fun a b => keyEq a b = false) (findActiveClient store c) :=
    List.Pairwise.sublist (List.filter_sublist store) hp
  refine List.Pairwise.imp_of_mem ?_ hsub
  intro a b ha hb hk ht
  rw [mem_findActiveClient] at ha hb
  rw [Bool.eq_false_iff] at hk
  exact hk (keyEq_true_iff.mpr ⟨ht, ha.2.1.trans hb.2.1.symm⟩)

/-! ### Merge absorption (for the default-client equivalence) -/

theorem dNodup_eq_of_tid {L : List TemplateModel} (h : dNodup L) {a b : TemplateModel}
    (ha : a ∈ L) (hb : b ∈ L) (ht : a.template_id = b.template_id) : a = b := by
  by_contra hne
  have hsymm : Symmetric (fun a b : TemplateModel => a.template_id ≠ b.template_id) :=
    fun _ _ hxy he => hxy he.symm
  exact h.forall hsymm ha hb hne ht

theorem dinsert_mem_self {L : List TemplateModel} (hL : dNodup L) {x : TemplateModel}
    (hx : x ∈ L) : dinsert L x = L := by
  have hany : (L.any (fun y => y.template_id == x.template_id)) = true :=
    List.any_eq_true.mpr ⟨x, hx, by simp⟩
  rw [dinsert, if_pos hany]
  have hfix : ∀ y ∈ L, (if (y.template_id == x.template_id) = true then x else y) = id y := by
    intro y hy
    by_cases h : y.template_id = x.template_id
    · rw [if_pos (beq_iff_eq.mpr h)]
      exact dNodup_eq_of_tid hL hx hy h.symm
    · rw [if_neg (fun hc => h (beq_iff_eq.mp hc))]
      rfl
  rw [List.map_congr_left hfix, List.map_id]

theorem foldl_dinsert_fresh {L : List TemplateModel} : ∀ {d}, dNodup L →
    (∀ x ∈ L, ∀ y ∈ d, y.template_id ≠ x.template_id) → L.foldl dinsert d = d ++ L := by
  induction L with
  | nil => intro d _ _; simp
  | cons z M ih =>
    intro d hL hfresh
    rw [dNodup, List.pairwise_cons] at hL
    rw [List.foldl_cons]
    have hany : (d.any (fun y => y.template_id == z.template_id)) = false := by
      apply List.any_eq_false.mpr
      intro y hy hc
      exact hfresh z (List.mem_cons_self z M) y hy (beq_iff_eq.mp hc)
    rw [dinsert, if_neg (by rw [hany]; exact Bool.false_ne_true)]
    rw [ih hL.2 ?_]
    · rw [List.append_assoc]
      rfl
    · intro x hx y hy
      rcases List.mem_append.mp hy with h | h
      · exact hfresh x (List.mem_cons_of_mem z hx) y h
      · rw [List.mem_singleton] at h
        subst h
        exact hL.1 x hx

theorem foldl_dinsert_idfix {L : List TemplateModel} {D : List TemplateModel} :
    (∀ x ∈ L, dinsert D x = D) → L.foldl dinsert D = D := by
  induction L with
  | nil => intro _; rfl
  | cons z M ih =>
    intro h
    rw [List.foldl_cons, h z (List.mem_cons_self z M)]
    exact ih (fun x hx => h x (List.mem_cons_of_mem z hx))

/-- Re-merging the active default layer into the dict built from it is the
identity: the skipped self-merge would change nothing. -/
theorem defaults_merge_absorbed {store : Store} (hu : uniqueKeys store = true) :
    (findActiveClient store "default").foldl dinsert
        ((findActiveClient store "default").foldl dinsert []) =
      (findActiveClient store "default").foldl dinsert [] := by
  have hnd : dNodup (findActiveClient store "default") := dNodup_findActive hu
  have hD : (findActiveClient store "default").foldl dinsert [] =
      findActiveClient store "default" := by
    rw [foldl_dinsert_fresh hnd (fun x _ y hy => absurd hy (List.not_mem_nil y))]
    rfl
  rw [hD]
  exact foldl_dinsert_idfix (fun x hx => dinsert_mem_self hnd hx)

/-! ### Concrete fixtures for witnesses -/

/-- A sample section used by concrete witness documents. -/
def sampleSection : TemplateSectionModel :=
  ⟨"Summary", "Summarise the visit", "bullet_points", none, none⟩

/-- A concrete template document builder for witnesses. -/
def mkDoc (tid cid nm : String) (act : Bool) (c u : Nat) : TemplateModel :=
  ⟨tid, cid, nm, "desc", [sampleSection], none, none, 1, act, c, u⟩

/-- A sample template used by several witnesses. -/
def sampleT : TemplateModel := mkDoc "A1" "c7" "SOAP" true 0 0

/-- Witness store: active default, active override, inactive default. -/
def storeW1 : Store :=
  [mkDoc "A1" "default" "SOAP" true 0 0,
   mkDoc "A1" "clinic7" "Custom" true 0 0,
   mkDoc "B2" "default" "Brief" false 0 0]

/-- Witness store: only inactive records for template A1. -/
def storeW2 : Store :=
  [mkDoc "A1" "default" "SOAP" false 0 0,
   mkDoc "A1" "c7" "Custom" false 0 0]

/-! ### Claim theorems -/

/-- Claim C3: when no active default-layer document and no active override
document for the client exists (inactive-only records included),
`get_template` fails with HTTP 404 and the detail names the requested
`template_id`. -/
theorem C3_absence (store : Store) (tid cid : String)
    (hdef : ∀ d ∈ store, d.template_id = tid → d.client_id = "default" → d.is_active = false)
    (hcli : ∀ d ∈ store, d.template_id = tid → d.client_id = cid → d.is_active = false) :
    get_template store tid cid = .error ⟨404, "Template " ++ tid ++ " not found"⟩ ∧
    pyIn tid ("Template " ++ tid ++ " not found") = true := by
  have h1 := findOneActive_eq_none hcli
  have h2 := findOneActive_eq_none hdef
  refine ⟨?_, pyIn_mid "Template " tid " not found"⟩
  by_cases h : cid = "default"
  · simp [get_template, h, h2]
  · simp [get_template, h, h1, h2]

/-- Witness for C3 on a store holding only inactive records. -/
theorem C3_absence_witness :
    (∀ d ∈ storeW2, d.template_id = "A1" → d.client_id = "default" → d.is_active = false) ∧
    (∀ d ∈ storeW2, d.template_id = "A1" → d.client_id = "c7" → d.is_active = false) ∧
    get_template storeW2 "A1" "c7" =
      .error ⟨404, "Template " ++ "A1" ++ " not found"⟩ :=
  ⟨by decide, by decide, (C3_absence storeW2 "A1" "c7" (by decide) (by decide)).1⟩

/-- Claim C7: replacing a non-existent `(template_id, client_id)` pair fails
with HTTP 404 naming template and client, and leaves every stored document
unchanged. -/
theorem C7_replace_missing (store : Store) (tid : String) (t : TemplateModel) (now : Nat)
    (h : ∀ d ∈ store, ¬(d.template_id = tid ∧ d.client_id = t.client_id)) :
    update_template store tid t now =
      (.error ⟨404, "Template " ++ tid ++ " not found for client " ++ t.client_id⟩,
       store) := by
  have hf := @fotu_none store tid t.client_id (fun old => applySet old t now) h
  simp [update_template, hf]

/-- Witness for C7: replace aimed at a pair the store does not hold. -/
theorem C7_replace_missing_witness :
    (∀ d ∈ storeW1, ¬(d.template_id = "Z9" ∧ d.client_id = sampleT.client_id)) ∧
    update_template storeW1 "Z9" sampleT 5 =
      (.error ⟨404, "Template " ++ "Z9" ++ " not found for client " ++ sampleT.client_id⟩,
       storeW1) :=
  ⟨by decide, C7_replace_missing storeW1 "Z9" sampleT 5 (by decide)⟩

/-- Claim C10: `create_template` reports a store failure as a 409 conflict
exactly when the exception message contains "duplicate key"
case-insensitively; every other failure becomes a 503, never a conflict. -/
theorem C10_conflict_classification (t : TemplateModel) (store : Store) (e : String) :
    (pyIn "duplicate key" (strLower e) = true →
      handle_insert t store (.error e) =
        (.error ⟨409, "Template " ++ t.template_id ++ " already exists for client " ++
          t.client_id⟩, store)) ∧
    (pyIn "duplicate key" (strLower e) = false →
      handle_insert t store (.error e) =
        (.error ⟨503, "Template service unavailable: " ++ e⟩, store)) ∧
    ∀ nowC nowU : Nat, create_template store t nowC nowU =
      handle_insert t store (insert_one store (stamp t nowC nowU)) := by
  refine ⟨?_, ?_, fun _ _ => rfl⟩
  · intro h
    simp [handle_insert, classify_create_failure, h]
  · intro h
    simp [handle_insert, classify_create_failure, h]

/-- Witness for C10: a mixed-case duplicate-key message classifies as 409,
an unrelated message as 503. -/
theorem C10_conflict_classification_witness :
    pyIn "duplicate key" (strLower "E11000 DUPLICATE Key error") = true ∧
    handle_insert sampleT [] (.error "E11000 DUPLICATE Key error") =
      (.error ⟨409, "Template " ++ sampleT.template_id ++ " already exists for client " ++
        sampleT.client_id⟩, []) ∧
    pyIn "duplicate key" (strLower "connection reset") = false ∧
    handle_insert sampleT [] (.error "connection reset") =
      (.error ⟨503, "Template service unavailable: " ++ "connection reset"⟩, []) :=
  ⟨by decide,
   (C10_conflict_classification sampleT [] "E11000 DUPLICATE Key error").1 (by decide),
   by decide,
   (C10_conflict_classification sampleT [] "connection reset").2.1 (by decide)⟩

/-- The stamped document of an insert never collides when the pair is fresh. -/
theorem any_keyEq_stamp_false {store : Store} {t : TemplateModel} {nowC nowU : Nat}
    (hfresh : ∀ d ∈ store, ¬(d.template_id = t.template_id ∧ d.client_id = t.client_id)) :
    (store.any (fun d => keyEq d (stamp t nowC nowU))) = false := by
  apply List.any_eq_false.mpr
  intro d hd hc
  exact hfresh d hd ⟨(keyEq_true_iff.mp hc).1, (keyEq_true_iff.mp hc).2⟩

/-- Claim C4, counterexample: `create_template` persists the stamped
document but returns the ORIGINAL request model, whose timestamps are not
the stamped ones — the returned record differs from the persisted one. -/
theorem C4_counterexample :
    (create_template [] sampleT 5 5).1 = .ok sampleT ∧
    (create_template [] sampleT 5 5).2 = [stamp sampleT 5 5] ∧
    stamp sampleT 5 5 ≠ sampleT ∧
    (create_template [] sampleT 5 5).1 ≠ .ok (stamp sampleT 5 5) := by decide

/-- Claim C4, amended: a fresh insert persists the document with
`created_at`/`updated_at` stamped at insert time, and returns the submitted
template unchanged — the response keeps the request's timestamp fields; the
persisted document agrees with the response on every other field. -/
theorem C4_insert_post (store : Store) (t : TemplateModel) (nowC nowU : Nat)
    (hfresh : ∀ d ∈ store, ¬(d.template_id = t.template_id ∧ d.client_id = t.client_id)) :
    create_template store t nowC nowU = (.ok t, store ++ [stamp t nowC nowU]) ∧
    (stamp t nowC nowU).created_at = nowC ∧
    (stamp t nowC nowU).updated_at = nowU ∧
    (stamp t nowC nowU).template_id = t.template_id ∧
    (stamp t nowC nowU).client_id = t.client_id ∧
    (stamp t nowC nowU).name = t.name ∧
    (stamp t nowC nowU).description = t.description ∧
    (stamp t nowC nowU).sections = t.sections ∧
    (stamp t nowC nowU).global_instruction = t.global_instruction ∧
    (stamp t nowC nowU).clinical_safety_rules = t.clinical_safety_rules ∧
    (stamp t nowC nowU).version = t.version ∧
    (stamp t nowC nowU).is_active = t.is_active := by
  refine ⟨?_, rfl, rfl, rfl, rfl, rfl, rfl, rfl, rfl, rfl, rfl, rfl⟩
  simp [create_template, insert_one, any_keyEq_stamp_false hfresh, handle_insert]

/-- Witness for the amended C4 on an empty store. -/
theorem C4_insert_post_witness :
    (∀ d ∈ ([] : Store), ¬(d.template_id = sampleT.template_id ∧
      d.client_id = sampleT.client_id)) ∧
    create_template [] sampleT 5 5 = (.ok sampleT, [] ++ [stamp sampleT 5 5]) :=
  ⟨by decide, (C4_insert_post [] sampleT 5 5 (by decide)).1⟩

/-- Claim C6: a first insert of a fresh `(template_id, client_id)` pair
succeeds, a second insert of the identical pair fails with HTTP 409 and
writes nothing, leaving exactly one stored document with that pair. -/
theorem C6_insert_uniqueness (store : Store) (t t2 : TemplateModel)
    (nowC nowU nowC2 nowU2 : Nat)
    (hfresh : ∀ d ∈ store, ¬(d.template_id = t.template_id ∧ d.client_id = t.client_id))
    (h1 : t2.template_id = t.template_id) (h2 : t2.client_id = t.client_id) :
    (create_template store t nowC nowU).1 = .ok t ∧
    (create_template (create_template store t nowC nowU).2 t2 nowC2 nowU2).1 =
      .error ⟨409, "Template " ++ t2.template_id ++ " already exists for client " ++
        t2.client_id⟩ ∧
    (create_template (create_template store t nowC nowU).2 t2 nowC2 nowU2).2 =
      (create_template store t nowC nowU).2 ∧
    (((create_template (create_template store t nowC nowU).2 t2 nowC2 nowU2).2).filter
        (fun d => keyEq d t2)).length = 1 := by
  have hc1 : create_template store t nowC nowU = (.ok t, store ++ [stamp t nowC nowU]) := by
    simp [create_template, insert_one, any_keyEq_stamp_false hfresh, handle_insert]
  have hk : keyEq (stamp t nowC nowU) (stamp t2 nowC2 nowU2) = true :=
    keyEq_true_iff.mpr ⟨h1.symm, h2.symm⟩
  have hany2 : ((store ++ [stamp t nowC nowU]).any
      (fun d => keyEq d (stamp t2 nowC2 nowU2))) = true :=
    List.any_eq_true.mpr ⟨stamp t nowC nowU,
      List.mem_append.mpr (Or.inr (List.mem_singleton.mpr rfl)), hk⟩
  have hdup : pyIn "duplicate key" (strLower
      "E11000 duplicate key error collection: templates index: template_id_1_client_id_1") =
      true := by decide
  have hc2 : create_template (store ++ [stamp t nowC nowU]) t2 nowC2 nowU2 =
      (.error ⟨409, "Template " ++ t2.template_id ++ " already exists for client " ++
        t2.client_id⟩, store ++ [stamp t nowC nowU]) := by
    simp [create_template, insert_one, hany2, handle_insert, classify_create_failure, hdup]
  rw [hc1]
  refine ⟨rfl, ?_, ?_, ?_⟩
  · rw [hc2]
  · rw [hc2]
  · rw [hc2]
    rw [List.filter_append]
    have hfs : store.filter (fun d => keyEq d t2) = [] := by
      apply List.filter_eq_nil_iff.mpr
      intro d hd hc
      exact hfresh d hd ⟨(keyEq_true_iff.mp hc).1.trans h1,
        (keyEq_true_iff.mp hc).2.trans h2⟩
    have hk2 : keyEq (stamp t nowC nowU) t2 = true :=
      keyEq_true_iff.mpr ⟨h1.symm, h2.symm⟩
    rw [hfs]
    simp [List.filter, hk2]

/-- Witness for C6 starting from the empty store. -/
theorem C6_insert_uniqueness_witness :
    (∀ d ∈ ([] : Store), ¬(d.template_id = sampleT.template_id ∧
      d.client_id = sampleT.client_id)) ∧
    (create_template [] sampleT 1 1).1 = .ok sampleT ∧
    (create_template (create_template [] sampleT 1 1).2 sampleT 2 2).1 =
      .error ⟨409, "Template " ++ sampleT.template_id ++ " already exists for client " ++
        sampleT.client_id⟩ :=
  ⟨by decide, (C6_insert_uniqueness [] sampleT sampleT 1 1 2 2 (by decide) rfl rfl).1,
   (C6_insert_uniqueness [] sampleT sampleT 1 1 2 2 (by decide) rfl rfl).2.1⟩

/-- Claim C1: for a non-default client, an active override is returned by
`get_template` (never the default layer); with the override absent or
inactive, an active default is returned. -/
theorem C1_point_resolution (store : Store) (tid cid : String)
    (hu : uniqueKeys store = true) (hcid : cid ≠ "default") :
    (∀ o ∈ store, o.template_id = tid → o.client_id = cid → o.is_active = true →
      get_template store tid cid = .ok o ∧ o.client_id ≠ "default") ∧
    ((∀ o ∈ store, o.template_id = tid → o.client_id = cid → o.is_active = false) →
      ∀ d ∈ store, d.template_id = tid → d.client_id = "default" → d.is_active = true →
        get_template store tid cid = .ok d) := by
  constructor
  · intro o ho h1 h2 h3
    have hf := findOneActive_eq_some hu ho h1 h2 h3
    refine ⟨?_, h2 ▸ hcid⟩
    simp [get_template, hcid, hf]
  · intro hno d hd h1 h2 h3
    have hf1 : findOneActive store tid cid = none := findOneActive_eq_none hno
    have hf2 := findOneActive_eq_some hu hd h1 h2 h3
    simp [get_template, hcid, hf1, hf2]

/-- Witness for C1: the active override wins; on a store whose override is
inactive, the default is returned. -/
theorem C1_point_resolution_witness :
    uniqueKeys storeW1 = true ∧ ("clinic7" : String) ≠ "default" ∧
    get_template storeW1 "A1" "clinic7" = .ok (mkDoc "A1" "clinic7" "Custom" true 0 0) ∧
    uniqueKeys [mkDoc "A1" "default" "SOAP2" true 0 0,
      mkDoc "A1" "c7" "Custom" false 0 0] = true ∧
    get_template [mkDoc "A1" "default" "SOAP2" true 0 0,
      mkDoc "A1" "c7" "Custom" false 0 0] "A1" "c7" =
      .ok (mkDoc "A1" "default" "SOAP2" true 0 0) :=
  ⟨by decide, by decide,
   ((C1_point_resolution storeW1 "A1" "clinic7" (by decide) (by decide)).1
     (mkDoc "A1" "clinic7" "Custom" true 0 0) (by decide) rfl rfl rfl).1,
   by decide,
   (C1_point_resolution [mkDoc "A1" "default" "SOAP2" true 0 0,
       mkDoc "A1" "c7" "Custom" false 0 0] "A1" "c7"
       (by decide) (by decide)).2 (by decide)
     (mkDoc "A1" "default" "SOAP2" true 0 0) (by decide) rfl rfl rfl⟩

/-- Claim C9, counterexample: when the body's `template_id` differs from
the path and another document already holds `(body template_id, body
client_id)`, the matched document is found but NOT overwritten — the
rekeying `$set` hits the unique index, `update_template` answers 503 and
writes nothing. Store: `(A1,c7)` and `(A9,c7)`; path `A1`, body keyed
`(A9,c7)`. -/
theorem C9_counterexample :
    (mkDoc "A1" "c7" "Custom" true 0 0) ∈
      [mkDoc "A1" "c7" "Custom" true 0 0, mkDoc "A9" "c7" "Other" true 0 0] ∧
    (mkDoc "A1" "c7" "Custom" true 0 0).template_id = "A1" ∧
    (mkDoc "A1" "c7" "Custom" true 0 0).client_id =
      (mkDoc "A9" "c7" "Neu" true 9 9).client_id ∧
    (mkDoc "A9" "c7" "Neu" true 9 9).template_id ≠ "A1" ∧
    update_template [mkDoc "A1" "c7" "Custom" true 0 0, mkDoc "A9" "c7" "Other" true 0 0]
        "A1" (mkDoc "A9" "c7" "Neu" true 9 9) 7 =
      (.error ⟨503, "Template service unavailable: " ++ dupKeyMsg⟩,
       [mkDoc "A1" "c7" "Custom" true 0 0, mkDoc "A9" "c7" "Other" true 0 0]) := by
  decide

/-- Claim C9, amended: `update_template` matches on the path `template_id`
and the body's `client_id`; when no other document holds the body's
`(template_id, client_id)` pair, the replace succeeds and overwrites the
stored `template_id` with the body's value, rekeying the document; when
another document holds that pair, the rekeying `$set` is rejected by the
unique index and the call answers 503 with no write. -/
theorem C9_replace_rekey (store : Store) (old t : TemplateModel) (tid : String) (now : Nat)
    (hu : uniqueKeys store = true) (hold : old ∈ store)
    (h1 : old.template_id = tid) (h2 : old.client_id = t.client_id)
    (hne : t.template_id ≠ tid) :
    ((∀ d ∈ store, d = old ∨
        ¬(d.template_id = t.template_id ∧ d.client_id = t.client_id)) →
      ∃ l1 l2, store = l1 ++ old :: l2 ∧
        update_template store tid t now =
          (.ok (applySet old t now), l1 ++ applySet old t now :: l2) ∧
        (applySet old t now).template_id = t.template_id ∧
        (applySet old t now).template_id ≠ old.template_id) ∧
    ((∃ e ∈ store, e ≠ old ∧ e.template_id = t.template_id ∧
        e.client_id = t.client_id) →
      update_template store tid t now =
        (.error ⟨503, "Template service unavailable: " ++ dupKeyMsg⟩, store)) := by
  obtain ⟨l1, l2, hs, hpre, hsuf⟩ := exists_first_decomp hu hold
  have hold_notin1 : old ∉ l1 := by
    intro hm
    have hk := hpre old hm
    rw [Bool.eq_false_iff] at hk
    exact hk (keyEq_true_iff.mpr ⟨rfl, rfl⟩)
  have hold_notin2 : old ∉ l2 := by
    intro hm
    have hk := hsuf old hm
    rw [Bool.eq_false_iff] at hk
    exact hk (keyEq_true_iff.mpr ⟨rfl, rfl⟩)
  have hpre2 : ∀ d ∈ l1, ¬(d.template_id = tid ∧ d.client_id = t.client_id) := by
    intro d hd hc
    have hk := hpre d hd
    rw [Bool.eq_false_iff] at hk
    exact hk (keyEq_true_iff.mpr ⟨hc.1.trans h1.symm, hc.2.trans h2.symm⟩)
  constructor
  · intro hfresh
    have hnc : ∀ d, d ∈ l1 ∨ d ∈ l2 → keyEq (applySet old t now) d = false := by
      intro d hd
      have hds : d ∈ store := by
        rw [hs]
        rcases hd with h | h
        · exact List.mem_append.mpr (Or.inl h)
        · exact List.mem_append.mpr (Or.inr (List.mem_cons_of_mem _ h))
      have hdo : d ≠ old := by
        rintro rfl
        rcases hd with h | h
        · exact hold_notin1 h
        · exact hold_notin2 h
      rcases hfresh d hds with rfl | hnot
      · exact absurd rfl hdo
      · rw [Bool.eq_false_iff]
        intro hk
        exact hnot ⟨(keyEq_true_iff.mp hk).1.symm, (keyEq_true_iff.mp hk).2.symm⟩
    have hf := @fotu_decomp l1 l2 old tid t.client_id (fun o => applySet o t now)
      hpre2 h1 h2 (fun d hd => hnc d (Or.inl hd)) (fun d hd => hnc d (Or.inr hd))
    refine ⟨l1, l2, hs, ?_, rfl, fun hc => hne (hc.trans h1)⟩
    rw [hs]
    simp [update_template, hf]
  · rintro ⟨e, he, hene, het, hec⟩
    have he2 : e ∈ l1 ∨ e ∈ l2 := by
      rw [hs] at he
      rcases List.mem_append.mp he with h | h
      · exact Or.inl h
      · rcases List.mem_cons.mp h with rfl | h
        · exact absurd rfl hene
        · exact Or.inr h
    have hkey : keyEq (applySet old t now) e = true :=
      keyEq_true_iff.mpr ⟨het.symm, hec.symm⟩
    have hf := @fotu_collision l1 l2 old e tid t.client_id (fun o => applySet o t now)
      hpre2 h1 h2 he2 hkey
    rw [hs]
    simp [update_template, hf]

/-- Witness for the amended C9: on a collision-free store the replace
addressed at `A1` with body `template_id = "A9"` rekeys the override
document. -/
theorem C9_replace_rekey_witness :
    uniqueKeys storeW1 = true ∧
    (∀ d ∈ storeW1, d = mkDoc "A1" "clinic7" "Custom" true 0 0 ∨
      ¬(d.template_id = (mkDoc "A9" "clinic7" "Neu" true 9 9).template_id ∧
        d.client_id = (mkDoc "A9" "clinic7" "Neu" true 9 9).client_id)) ∧
    (∃ l1 l2, storeW1 = l1 ++ mkDoc "A1" "clinic7" "Custom" true 0 0 :: l2 ∧
      update_template storeW1 "A1" (mkDoc "A9" "clinic7" "Neu" true 9 9) 7 =
        (.ok (applySet (mkDoc "A1" "clinic7" "Custom" true 0 0)
          (mkDoc "A9" "clinic7" "Neu" true 9 9) 7),
         l1 ++ applySet (mkDoc "A1" "clinic7" "Custom" true 0 0)
          (mkDoc "A9" "clinic7" "Neu" true 9 9) 7 :: l2) ∧
      (applySet (mkDoc "A1" "clinic7" "Custom" true 0 0)
        (mkDoc "A9" "clinic7" "Neu" true 9 9) 7).template_id =
        (mkDoc "A9" "clinic7" "Neu" true 9 9).template_id ∧
      (applySet (mkDoc "A1" "clinic7" "Custom" true 0 0)
        (mkDoc "A9" "clinic7" "Neu" true 9 9) 7).template_id ≠
        (mkDoc "A1" "clinic7" "Custom" true 0 0).template_id) :=
  ⟨by decide, by decide,
   (C9_replace_rekey storeW1 (mkDoc "A1" "clinic7" "Custom" true 0 0)
     (mkDoc "A9" "clinic7" "Neu" true 9 9) "A1" 7 (by decide) (by decide) rfl rfl
     (by decide)).1 (by decide)⟩

/-- Claim C5: a successful replace keeps `created_at` at its insert-time
value, stamps `updated_at` with the current clock reading (which strictly
increases across successive replaces under a strictly increasing clock),
and overwrites every other field from the supplied template. Both replaces
succeed because no other stored document holds either body's
`(template_id, client_id)` pair (otherwise the unique index would reject
the `$set`). -/
theorem C5_replace_frame (store : Store) (old t t2 : TemplateModel) (tid : String)
    (now now2 : Nat) (hu : uniqueKeys store = true) (hold : old ∈ store)
    (h1 : old.template_id = tid) (h2 : old.client_id = t.client_id)
    (hfresh : ∀ d ∈ store, d = old ∨
      ¬(d.template_id = t.template_id ∧ d.client_id = t.client_id))
    (hfresh2 : ∀ d ∈ store, d = old ∨
      ¬(d.template_id = t2.template_id ∧ d.client_id = t2.client_id))
    (ht2 : t2.client_id = t.client_id) (hnow : now < now2) :
    (update_template store tid t now).1 = .ok (applySet old t now) ∧
    (applySet old t now).created_at = old.created_at ∧
    (applySet old t now).updated_at = now ∧
    (applySet old t now).template_id = t.template_id ∧
    (applySet old t now).client_id = t.client_id ∧
    (applySet old t now).name = t.name ∧
    (applySet old t now).description = t.description ∧
    (applySet old t now).sections = t.sections ∧
    (applySet old t now).global_instruction = t.global_instruction ∧
    (applySet old t now).clinical_safety_rules = t.clinical_safety_rules ∧
    (applySet old t now).version = t.version ∧
    (applySet old t now).is_active = t.is_active ∧
    (update_template (update_template store tid t now).2 t.template_id t2 now2).1 =
      .ok (applySet (applySet old t now) t2 now2) ∧
    (applySet (applySet old t now) t2 now2).created_at = old.created_at ∧
    (applySet old t now).updated_at < (applySet (applySet old t now) t2 now2).updated_at := by
  obtain ⟨l1, l2, hs, hpre, hsuf⟩ := exists_first_decomp hu hold
  have hold_notin1 : old ∉ l1 := by
    intro hm
    have hk := hpre old hm
    rw [Bool.eq_false_iff] at hk
    exact hk (keyEq_true_iff.mpr ⟨rfl, rfl⟩)
  have hold_notin2 : old ∉ l2 := by
    intro hm
    have hk := hsuf old hm
    rw [Bool.eq_false_iff] at hk
    exact hk (keyEq_true_iff.mpr ⟨rfl, rfl⟩)
  have hrest : ∀ d, d ∈ l1 ∨ d ∈ l2 → d ∈ store ∧ d ≠ old := by
    intro d hd
    refine ⟨?_, ?_⟩
    · rw [hs]
      rcases hd with h | h
      · exact List.mem_append.mpr (Or.inl h)
      · exact List.mem_append.mpr (Or.inr (List.mem_cons_of_mem _ h))
    · rintro rfl
      rcases hd with h | h
      · exact hold_notin1 h
      · exact hold_notin2 h
  have hpre1 : ∀ d ∈ l1, ¬(d.template_id = tid ∧ d.client_id = t.client_id) := by
    intro d hd hc
    have hk := hpre d hd
    rw [Bool.eq_false_iff] at hk
    exact hk (keyEq_true_iff.mpr ⟨hc.1.trans h1.symm, hc.2.trans h2.symm⟩)
  have hnc1 : ∀ d, d ∈ l1 ∨ d ∈ l2 → keyEq (applySet old t now) d = false := by
    intro d hd
    rcases hfresh d (hrest d hd).1 with rfl | hnot
    · exact absurd rfl (hrest d hd).2
    · rw [Bool.eq_false_iff]
      intro hk
      exact hnot ⟨(keyEq_true_iff.mp hk).1.symm, (keyEq_true_iff.mp hk).2.symm⟩
  have hf1 := @fotu_decomp l1 l2 old tid t.client_id (fun o => applySet o t now)
    hpre1 h1 h2 (fun d hd => hnc1 d (Or.inl hd)) (fun d hd => hnc1 d (Or.inr hd))
  have hu1 : update_template store tid t now =
      (.ok (applySet old t now), l1 ++ applySet old t now :: l2) := by
    rw [hs]
    simp [update_template, hf1]
  have hpre2 : ∀ d ∈ l1, ¬(d.template_id = t.template_id ∧ d.client_id = t2.client_id) := by
    intro d hd hc
    rcases hfresh d (hrest d (Or.inl hd)).1 with rfl | hnot
    · exact hold_notin1 hd
    · exact hnot ⟨hc.1, hc.2.trans ht2⟩
  have hnc2 : ∀ d, d ∈ l1 ∨ d ∈ l2 →
      keyEq (applySet (applySet old t now) t2 now2) d = false := by
    intro d hd
    rcases hfresh2 d (hrest d hd).1 with rfl | hnot
    · exact absurd rfl (hrest d hd).2
    · rw [Bool.eq_false_iff]
      intro hk
      exact hnot ⟨(keyEq_true_iff.mp hk).1.symm, (keyEq_true_iff.mp hk).2.symm⟩
  have hf2 := @fotu_decomp l1 l2 (applySet old t now) t.template_id t2.client_id
      (fun o => applySet o t2 now2) hpre2 rfl ht2.symm
      (fun d hd => hnc2 d (Or.inl hd)) (fun d hd => hnc2 d (Or.inr hd))
  have hu2 : update_template (l1 ++ applySet old t now :: l2) t.template_id t2 now2 =
      (.ok (applySet (applySet old t now) t2 now2),
       l1 ++ applySet (applySet old t now) t2 now2 :: l2) := by
    simp [update_template, hf2]
  refine ⟨by rw [hu1], rfl, rfl, rfl, rfl, rfl, rfl, rfl, rfl, rfl, rfl, rfl, ?_,
    rfl, hnow⟩
  rw [hu1, hu2]

/-- Witness for C5: two successive replaces of the default `A1` document at
clock readings 7 and 9. -/
theorem C5_replace_frame_witness :
    uniqueKeys storeW1 = true ∧ 7 < 9 ∧
    (update_template storeW1 "A1" (mkDoc "A1" "default" "SOAP-v2" true 99 99) 7).1 =
      .ok (applySet (mkDoc "A1" "default" "SOAP" true 0 0)
        (mkDoc "A1" "default" "SOAP-v2" true 99 99) 7) ∧
    (applySet (mkDoc "A1" "default" "SOAP" true 0 0)
      (mkDoc "A1" "default" "SOAP-v2" true 99 99) 7).created_at =
        (mkDoc "A1" "default" "SOAP" true 0 0).created_at :=
  ⟨by decide, by decide,
   (C5_replace_frame storeW1 (mkDoc "A1" "default" "SOAP" true 0 0)
       (mkDoc "A1" "default" "SOAP-v2" true 99 99)
       (mkDoc "A1" "default" "SOAP-v3" true 0 0) "A1" 7 9
       (by decide) (by decide) rfl rfl (by decide) (by decide) rfl (by decide)).1,
   (C5_replace_frame storeW1 (mkDoc "A1" "default" "SOAP" true 0 0)
       (mkDoc "A1" "default" "SOAP-v2" true 99 99)
       (mkDoc "A1" "default" "SOAP-v3" true 0 0) "A1" 7 9
       (by decide) (by decide) rfl rfl (by decide) (by decide) rfl (by decide)).2.1⟩

/-- Claim C8: for the default client, `list_templates` equals both the
defaults-only computation and the variant performing the skipped
override-merge step — the skip is a pure optimization. -/
theorem C8_default_client_equiv (store : Store) (now : Nat)
    (hu : uniqueKeys store = true) :
    list_templates store "default" now = list_templates_noSkip store "default" now ∧
    (list_templates store "default" now).templates =
      sortByName ((findActiveClient store "default").foldl dinsert []) := by
  have habs := defaults_merge_absorbed hu
  have h1 : list_templates store "default" now =
      ⟨sortByName ((findActiveClient store "default").foldl dinsert []), now⟩ := rfl
  have h2 : list_templates_noSkip store "default" now =
      ⟨sortByName ((findActiveClient store "default").foldl dinsert
        ((findActiveClient store "default").foldl dinsert [])), now⟩ := rfl
  refine ⟨?_, by rw [h1]⟩
  rw [h1, h2, habs]

/-- Witness for C8 on a concrete store. -/
theorem C8_default_client_equiv_witness :
    uniqueKeys storeW1 = true ∧
    list_templates storeW1 "default" 3 = list_templates_noSkip storeW1 "default" 3 :=
  ⟨by decide, (C8_default_client_equiv storeW1 3 (by decide)).1⟩

/-- The merged dict `list_templates` sorts, as a function of the requested
client (the two `let`s of the handler inlined). -/
def mergedDict (store : Store) (cid : String) : List TemplateModel :=
  if cid ≠ "default" then
    (findActiveClient store cid).foldl dinsert
      ((findActiveClient store "default").foldl dinsert [])
  else (findActiveClient store "default").foldl dinsert []

theorem list_templates_eq_mergedDict (store : Store) (cid : String) (now : Nat) :
    (list_templates store cid now).templates = sortByName (mergedDict store cid) := rfl

theorem mergedDict_nodup {store : Store} {cid : String} : dNodup (mergedDict store cid) := by
  rw [mergedDict]
  split
  · exact dNodup_foldl (dNodup_foldl List.Pairwise.nil)
  · exact dNodup_foldl List.Pairwise.nil

theorem mergedDict_mem {store : Store} {cid : String} {y : TemplateModel}
    (hy : y ∈ mergedDict store cid) :
    y ∈ store ∧ y.is_active = true ∧ (y.client_id = "default" ∨ y.client_id = cid) := by
  rw [mergedDict] at hy
  split at hy
  · rcases foldl_dinsert_mem hy with h | h
    · rcases foldl_dinsert_mem h with h2 | h2
      · exact absurd h2 (List.not_mem_nil y)
      · have hm := mem_findActiveClient.mp h2
        exact ⟨hm.1, hm.2.2, Or.inl hm.2.1⟩
    · have hm := mem_findActiveClient.mp h
      exact ⟨hm.1, hm.2.2, Or.inr hm.2.1⟩
  · rcases foldl_dinsert_mem hy with h | h
    · exact absurd h (List.not_mem_nil y)
    · have hm := mem_findActiveClient.mp h
      exact ⟨hm.1, hm.2.2, Or.inl hm.2.1⟩

theorem mergedDict_tid_iff {store : Store} {cid : String} {tv : String} :
    (∃ y ∈ mergedDict store cid, y.template_id = tv) ↔
      ∃ d ∈ store, d.template_id = tv ∧ d.is_active = true ∧
        (d.client_id = "default" ∨ d.client_id = cid) := by
  rw [mergedDict]
  split
  · next hcid =>
    rw [foldl_dinsert_tid_iff, foldl_dinsert_tid_iff]
    simp only [List.not_mem_nil, false_and, exists_false, false_or]
    constructor
    · rintro (⟨y, hy, rfl⟩ | ⟨y, hy, rfl⟩)
      · have hm := mem_findActiveClient.mp hy
        exact ⟨y, hm.1, rfl, hm.2.2, Or.inl hm.2.1⟩
      · have hm := mem_findActiveClient.mp hy
        exact ⟨y, hm.1, rfl, hm.2.2, Or.inr hm.2.1⟩
    · rintro ⟨d, hd, rfl, hact, hc | hc⟩
      · exact Or.inl ⟨d, mem_findActiveClient.mpr ⟨hd, hc, hact⟩, rfl⟩
      · exact Or.inr ⟨d, mem_findActiveClient.mpr ⟨hd, hc, hact⟩, rfl⟩
  · next hcid =>
    have hc0 : cid = "default" := not_ne_iff.mp hcid
    subst hc0
    rw [foldl_dinsert_tid_iff]
    simp only [List.not_mem_nil, false_and, exists_false, false_or]
    constructor
    · rintro ⟨y, hy, rfl⟩
      have hm := mem_findActiveClient.mp hy
      exact ⟨y, hm.1, rfl, hm.2.2, Or.inl hm.2.1⟩
    · rintro ⟨d, hd, rfl, hact, hc | hc⟩
      · exact ⟨d, mem_findActiveClient.mpr ⟨hd, hc, hact⟩, rfl⟩
      · exact ⟨d, mem_findActiveClient.mpr ⟨hd, hc, hact⟩, rfl⟩

theorem mergedDict_lookup_override {store : Store} {cid : String}
    (hu : uniqueKeys store = true) (hcid : cid ≠ "default") {o : TemplateModel}
    (ho : o ∈ store) (hc : o.client_id = cid) (ha : o.is_active = true) :
    dlookup (mergedDict store cid) o.template_id = some o := by
  have hoO : o ∈ findActiveClient store cid := mem_findActiveClient.mpr ⟨ho, hc, ha⟩
  rw [mergedDict, if_pos hcid]
  exact dlookup_foldl_self (dNodup_findActive hu) hoO

theorem mergedDict_lookup_default {store : Store} {cid : String}
    (hu : uniqueKeys store = true) {d0 : TemplateModel}
    (hd : d0 ∈ store) (hc : d0.client_id = "default") (ha : d0.is_active = true)
    (hno : cid = "default" ∨ ∀ o ∈ store, o.client_id = cid → o.is_active = true →
      o.template_id ≠ d0.template_id) :
    dlookup (mergedDict store cid) d0.template_id = some d0 := by
  have hdD : d0 ∈ findActiveClient store "default" := mem_findActiveClient.mpr ⟨hd, hc, ha⟩
  have hDlook : dlookup ((findActiveClient store "default").foldl dinsert [])
      d0.template_id = some d0 := dlookup_foldl_self (dNodup_findActive hu) hdD
  rw [mergedDict]
  by_cases hcid : cid = "default"
  · rw [if_neg (not_ne_iff.mpr hcid)]
    exact hDlook
  · rw [if_pos hcid]
    rcases hno with hc0 | hno
    · exact absurd hc0 hcid
    · rw [dlookup_foldl_not_mem ?_]
      · exact hDlook
      · intro x hx
        rw [mem_findActiveClient] at hx
        exact hno x hx.1 hx.2.1 hx.2.2

/-- Claim C2: `list_templates` returns, sorted by name ascending, exactly
one entry per `template_id` that has an active default or an active
document for the requested client; every entry is such a visible document;
an active override always wins the slot of its `template_id` (so default
and override are never both present). -/
theorem C2_list_resolution (store : Store) (cid : String) (now : Nat)
    (hu : uniqueKeys store = true) :
    List.Pairwise nameLe (list_templates store cid now).templates ∧
    List.Pairwise (fun a b => a.template_id ≠ b.template_id)
      (list_templates store cid now).templates ∧
    (∀ tv : String,
      (∃ y ∈ (list_templates store cid now).templates, y.template_id = tv) ↔
        ∃ d ∈ store, d.template_id = tv ∧ d.is_active = true ∧
          (d.client_id = "default" ∨ d.client_id = cid)) ∧
    (∀ y ∈ (list_templates store cid now).templates,
      y ∈ store ∧ y.is_active = true ∧ (y.client_id = "default" ∨ y.client_id = cid)) ∧
    (∀ o ∈ store, cid ≠ "default" → o.client_id = cid → o.is_active = true →
      o ∈ (list_templates store cid now).templates ∧
        ∀ y ∈ (list_templates store cid now).templates,
          y.template_id = o.template_id → y = o) ∧
    (∀ d0 ∈ store, d0.client_id = "default" → d0.is_active = true →
      (cid = "default" ∨ ∀ o ∈ store, o.client_id = cid → o.is_active = true →
        o.template_id ≠ d0.template_id) →
      d0 ∈ (list_templates store cid now).templates ∧
        ∀ y ∈ (list_templates store cid now).templates,
          y.template_id = d0.template_id → y = d0) := by
  have hlist := list_templates_eq_mergedDict store cid now
  have hnd : dNodup (mergedDict store cid) := mergedDict_nodup
  have hperm : List.Perm (sortByName (mergedDict store cid)) (mergedDict store cid) :=
    List.perm_insertionSort nameLe (mergedDict store cid)
  have hsymm : ∀ {x y : TemplateModel},
      x.template_id ≠ y.template_id → y.template_id ≠ x.template_id :=
    fun h he => h he.symm
  refine ⟨?_, ?_, ?_, ?_, ?_, ?_⟩
  · rw [hlist]
    exact List.sorted_insertionSort nameLe (mergedDict store cid)
  · rw [hlist]
    exact (hperm.pairwise_iff hsymm).mpr hnd
  · intro tv
    rw [hlist]
    constructor
    · rintro ⟨y, hy, rfl⟩
      exact mergedDict_tid_iff.mp ⟨y, hperm.mem_iff.mp hy, rfl⟩
    · intro h
      rcases mergedDict_tid_iff.mpr h with ⟨y, hy, ht⟩
      exact ⟨y, hperm.mem_iff.mpr hy, ht⟩
  · intro y hy
    rw [hlist] at hy
    exact mergedDict_mem (hperm.mem_iff.mp hy)
  · intro o ho hcid hc ha
    have hlook := mergedDict_lookup_override hu hcid ho hc ha
    have hoM := (dlookup_eq_some_iff hnd).mp hlook
    rw [hlist]
    refine ⟨hperm.mem_iff.mpr hoM.1, ?_⟩
    intro y hyres hyt
    have hy2 : dlookup (mergedDict store cid) o.template_id = some y :=
      (dlookup_eq_some_iff hnd).mpr ⟨hperm.mem_iff.mp hyres, hyt⟩
    exact (Option.some.inj (hlook.symm.trans hy2)).symm
  · intro d0 hd0 hc ha hno
    have hlook := mergedDict_lookup_default hu hd0 hc ha hno
    have hdM := (dlookup_eq_some_iff hnd).mp hlook
    rw [hlist]
    refine ⟨hperm.mem_iff.mpr hdM.1, ?_⟩
    intro y hyres hyt
    have hy2 : dlookup (mergedDict store cid) d0.template_id = some y :=
      (dlookup_eq_some_iff hnd).mpr ⟨hperm.mem_iff.mp hyres, hyt⟩
    exact (Option.some.inj (hlook.symm.trans hy2)).symm

/-- Witness for C2: the override entry wins and the list is the resolved,
name-sorted view. -/
theorem C2_list_resolution_witness :
    uniqueKeys storeW1 = true ∧
    mkDoc "A1" "clinic7" "Custom" true 0 0 ∈ (list_templates storeW1 "clinic7" 3).templates ∧
    List.Pairwise nameLe (list_templates storeW1 "clinic7" 3).templates :=
  ⟨by decide,
   ((C2_list_resolution storeW1 "clinic7" 3 (by decide)).2.2.2.2.1
     (mkDoc "A1" "clinic7" "Custom" true 0 0) (by decide) (by decide) rfl rfl).1,
   (C2_list_resolution storeW1 "clinic7" 3 (by decide)).1⟩
